import Mathlib

/-!
Verification of the Text-to-Speech front end (AWS Lambda / Polly client).

The development shallowly embeds the functional core of the repository:
the request construction and validation in `handleGenerate` (src/src/App.tsx),
the two synthesis adapters `convertTextToSpeech` (Shape A, the Lambda gateway
client bundled in App.tsx, and Shape B, src/src/utils/api.ts), the audio-player
state transitions of the `AudioPlayer` component, and the blob-URL lifecycle
(`cleanupAudioUrl` together with the player's cleanup effects).

JavaScript strings are modelled by Lean `String` (whose `data` field is the
list of scalar values); `String.prototype.length` counts UTF-16 code units,
modelled by `utf16Length`. JavaScript numbers are modelled by `ℚ`; the
serialisation `Number.prototype.toString` used when building the wire request
is injective on numbers, so the request records carry the numeric value
itself. Truthiness of possibly-undefined strings (`undefined` and `""` are
falsy) is modelled by `jsTruthy`/`jsOr`/`jsOrStr`.
-/

namespace TTS

/-- Whitespace recognised by `String.prototype.trim` (ECMAScript WhiteSpace
and LineTerminator code points). -/
def isJsWhitespace (c : Char) : Bool :=
  c.toNat ∈ [9, 10, 11, 12, 13, 32, 160, 0x1680,
    0x2000, 0x2001, 0x2002, 0x2003, 0x2004, 0x2005, 0x2006, 0x2007,
    0x2008, 0x2009, 0x200a, 0x2028, 0x2029, 0x202f, 0x205f, 0x3000, 0xfeff]

/-- Trim on the underlying character list: drop leading and trailing
whitespace. -/
def jsTrimList (l : List Char) : List Char :=
  ((l.dropWhile isJsWhitespace).reverse.dropWhile isJsWhitespace).reverse

/-- Model of `String.prototype.trim`. -/
def jsTrim (s : String) : String :=
  ⟨jsTrimList s.data⟩

/-- Model of `String.prototype.length`: the number of UTF-16 code units
(scalar values above `0xFFFF` are encoded as surrogate pairs and count
twice). -/
def utf16Length (s : String) : Nat :=
  (s.data.map fun c => if c.toNat < 65536 then 1 else 2).sum

/-- Model of `String.prototype.startsWith`. -/
def jsStartsWith (s p : String) : Bool :=
  p.data.isPrefixOf s.data

/-- Substring test on character lists: `pat` occurs contiguously in the
list. -/
def containsSub (pat : List Char) : List Char → Bool
  | [] => pat.isPrefixOf []
  | c :: t => pat.isPrefixOf (c :: t) || containsSub pat t

/-- Model of `String.prototype.includes` (substring test). -/
def jsIncludes (s p : String) : Bool :=
  containsSub p.data s.data

/-- Truthiness of a possibly-undefined JavaScript string: `undefined`
(`none`) and the empty string are falsy. -/
def jsTruthy : Option String → Bool
  | none => false
  | some s => s ≠ ""

/-- Model of `a || b` on possibly-undefined strings. -/
def jsOr (a b : Option String) : Option String :=
  match a with
  | some s => if s ≠ "" then some s else b
  | none => b

/-- Model of `a || b` where `b` is a definite string. -/
def jsOrStr (a : Option String) (b : String) : String :=
  match a with
  | some s => if s ≠ "" then s else b
  | none => b

/-! ## Data model (src/src/types, the `Voice`, request and response records) -/

/-- A Polly voice entry (src `Voice` interface). `gender` is kept as the
literal string of the TypeScript union. -/
structure Voice where
  id : String
  name : String
  gender : String
  language : String
  languageCode : String
deriving DecidableEq

/-- Engine union `'standard' | 'neural'`. -/
inductive Engine where
  | standard
  | neural
deriving DecidableEq

/-- The wire request record built by `handleGenerate` (src `TTSRequest` /
`LambdaTTSRequest`). `speechRate` and `pitch` are sent as
`speechRate.toString()` / `pitch.toString()`; since that serialisation is
injective on numbers the record carries the numeric values. -/
structure TTSRequest where
  text : String
  voiceId : String
  engine : Engine
  outputFormat : String
  speechRate : ℚ
  pitch : ℚ
deriving DecidableEq

/-- The typed error `TTSApiError` (message plus optional HTTP status). -/
structure TTSApiError where
  message : String
  status : Option Nat
deriving DecidableEq

/-- Fields that the adapters read off a parsed JSON body. A field that is
absent in the JSON is `none` (JavaScript `undefined`). -/
structure JsonBody where
  message : Option String := none
  error : Option String := none
  audioUrl : Option String := none
  url : Option String := none
  contentType : Option String := none
  requestId : Option String := none
deriving DecidableEq

/-- A received HTTP response as the adapters observe it: `ok`/`status`/
`statusText` of the fetch `Response`, the two headers the code reads,
the JSON parse of the body (`none` when the body is not valid JSON) and
the raw bytes delivered by `arrayBuffer()`. -/
structure HttpResponse where
  ok : Bool
  status : Nat
  statusText : String
  contentTypeHdr : Option String
  xRequestId : Option String
  json : Option JsonBody
  body : List Nat
deriving DecidableEq

/-- The normalised success value of the Shape-A adapter
(src `LambdaTTSResponse`). `audioUrl` is an `Option` because the code can
produce `undefined` there (JSON branch with both `audioUrl` and `url`
missing). -/
structure LambdaTTSResponse where
  audioUrl : Option String
  contentType : String
  requestId : String
  audioData : Option (List Nat)
deriving DecidableEq

/-! ## Request construction (`handleGenerate`, src/src/App.tsx lines 51-92) -/

/-- The request record built at App.tsx lines 66-73: trimmed text, the
selected voice id, the engine, a fixed `'mp3'` output format, and the rate
and pitch values serialised unchanged. -/
def buildTTSRequest (text voiceId : String) (engine : Engine)
    (speechRate pitch : ℚ) : TTSRequest :=
  { text := jsTrim text
    voiceId := voiceId
    engine := engine
    outputFormat := "mp3"
    speechRate := speechRate
    pitch := pitch }

/-- Error message set when the trimmed text is empty (App.tsx line 53). -/
def emptyTextMsg : String := "Please enter some text to convert to speech."

/-- Error message set when `text.length > 3000` (App.tsx line 58). -/
def tooLongMsg : String := "Text exceeds maximum length of 3,000 characters."

set_option linter.unusedVariables false in
/-- The validation-and-build phase of `handleGenerate` (App.tsx lines
51-73): first the falsy check on `text.trim()`, then the
`text.length > 3000` check, then the request record is built. The voice
catalog state `voices` is in scope in the component but is never consulted
here, which the unused parameter makes explicit. -/
def handleGenerateBuild (voices : List Voice) (text voiceId : String)
    (engine : Engine) (speechRate pitch : ℚ) : Except String TTSRequest :=
  if jsTrim text = "" then
    Except.error emptyTextMsg
  else if 3000 < utf16Length text then
    Except.error tooLongMsg
  else
    Except.ok (buildTTSRequest text voiceId engine speechRate pitch)

/-- The `DEMO_VOICES` constant of App.tsx (lines 12-19). -/
def DEMO_VOICES : List Voice :=
  [ ⟨"Joanna", "Joanna", "Female", "English (US)", "en-US"⟩,
    ⟨"Matthew", "Matthew", "Male", "English (US)", "en-US"⟩,
    ⟨"Amy", "Amy", "Female", "English (UK)", "en-GB"⟩,
    ⟨"Brian", "Brian", "Male", "English (UK)", "en-GB"⟩,
    ⟨"Céline", "Céline", "Female", "French", "fr-FR"⟩,
    ⟨"Mathieu", "Mathieu", "Male", "French", "fr-FR"⟩ ]

/-! ## Shape-A synthesis adapter (`convertTextToSpeech`, the Lambda gateway
client bundled in src/src/App.tsx, lines 290-352) -/

/-- Response handling of the Shape-A `convertTextToSpeech` on a received
response. `freshBlobUrl` models the handle minted by
`URL.createObjectURL(audioBlob)` and `freshUuid` the value of
`crypto.randomUUID()`.

On `!response.ok`: the message defaults to `"HTTP error! status: " ++
status`; if the body parses as JSON it becomes `errorData.message ||
errorData.error || default`, otherwise `response.statusText || default`;
a `TTSApiError` with the response status is raised. On success the code
branches on whether the `content-type` header (defaulted to `""`)
includes `"audio/"`: the audio branch wraps the bytes in a blob handle
and takes `x-request-id` or a fresh UUID; the JSON branch returns
`audioUrl: json.audioUrl || json.url`, `contentType` defaulted to
`"audio/mpeg"` and `requestId` defaulted to a fresh UUID. A JSON parse
failure in the success branch escapes to the outer catch, which raises
the generic failure message without a status. -/
def convertTextToSpeechA (freshBlobUrl freshUuid : String)
    (resp : HttpResponse) : Except TTSApiError LambdaTTSResponse :=
  if resp.ok = false then
    let defaultMsg := "HTTP error! status: " ++ toString resp.status
    let errorMessage :=
      match resp.json with
      | some j => jsOrStr (jsOr j.message j.error) defaultMsg
      | none => if resp.statusText ≠ "" then resp.statusText else defaultMsg
    Except.error ⟨errorMessage, some resp.status⟩
  else
    let contentType := resp.contentTypeHdr.getD ""
    if jsIncludes contentType "audio/" then
      Except.ok
        { audioUrl := some freshBlobUrl
          contentType := contentType
          requestId := jsOrStr resp.xRequestId freshUuid
          audioData := some resp.body }
    else
      match resp.json with
      | none => Except.error ⟨"Failed to convert text to speech. Please try again.", none⟩
      | some j =>
          Except.ok
            { audioUrl := jsOr j.audioUrl j.url
              contentType := jsOrStr j.contentType "audio/mpeg"
              requestId := jsOrStr j.requestId freshUuid
              audioData := none }

/-! ## Shape-B synthesis adapter (`convertTextToSpeech`,
src/src/utils/api.ts lines 10-36) -/

/-- Response handling of the Shape-B `convertTextToSpeech`. On
`!response.ok` the error body is parsed with `.catch(() => ({}))` (a parse
failure yields the empty object) and the message is `errorData.message ||
"HTTP error! status: " ++ status` — note that only the `message` field is
consulted, never `error`. On success the parsed JSON body is returned
as-is; a parse failure there escapes to the outer catch and raises the
generic failure message without a status. -/
def convertTextToSpeechB (resp : HttpResponse) :
    Except TTSApiError JsonBody :=
  if resp.ok = false then
    let errorData := resp.json.getD {}
    Except.error
      ⟨jsOrStr errorData.message ("HTTP error! status: " ++ toString resp.status),
       some resp.status⟩
  else
    match resp.json with
    | some j => Except.ok j
    | none => Except.error ⟨"Failed to convert text to speech. Please try again.", none⟩

/-! ## Voice catalog (Shape-A `getAvailableVoices` and `loadVoices`) -/

/-- The static Polly voice list returned by the Shape-A
`getAvailableVoices` (App.tsx lines 354-411). -/
def lambdaVoices : List Voice :=
  [ ⟨"Joanna", "Joanna", "Female", "English (US)", "en-US"⟩,
    ⟨"Matthew", "Matthew", "Male", "English (US)", "en-US"⟩,
    ⟨"Ivy", "Ivy", "Female", "English (US)", "en-US"⟩,
    ⟨"Justin", "Justin", "Male", "English (US)", "en-US"⟩,
    ⟨"Kendra", "Kendra", "Female", "English (US)", "en-US"⟩,
    ⟨"Kimberly", "Kimberly", "Female", "English (US)", "en-US"⟩,
    ⟨"Salli", "Salli", "Female", "English (US)", "en-US"⟩,
    ⟨"Joey", "Joey", "Male", "English (US)", "en-US"⟩,
    ⟨"Amy", "Amy", "Female", "English (UK)", "en-GB"⟩,
    ⟨"Brian", "Brian", "Male", "English (UK)", "en-GB"⟩,
    ⟨"Emma", "Emma", "Female", "English (UK)", "en-GB"⟩,
    ⟨"Nicole", "Nicole", "Female", "English (AU)", "en-AU"⟩,
    ⟨"Russell", "Russell", "Male", "English (AU)", "en-AU"⟩,
    ⟨"Olivia", "Olivia", "Female", "English (AU)", "en-AU"⟩,
    ⟨"Céline", "Céline", "Female", "French", "fr-FR"⟩,
    ⟨"Mathieu", "Mathieu", "Male", "French", "fr-FR"⟩,
    ⟨"Léa", "Léa", "Female", "French", "fr-FR"⟩,
    ⟨"Marlene", "Marlene", "Female", "German", "de-DE"⟩,
    ⟨"Hans", "Hans", "Male", "German", "de-DE"⟩,
    ⟨"Vicki", "Vicki", "Female", "German", "de-DE"⟩,
    ⟨"Penélope", "Penélope", "Female", "Spanish (ES)", "es-ES"⟩,
    ⟨"Enrique", "Enrique", "Male", "Spanish (ES)", "es-ES"⟩,
    ⟨"Conchita", "Conchita", "Female", "Spanish (ES)", "es-ES"⟩,
    ⟨"Carla", "Carla", "Female", "Italian", "it-IT"⟩,
    ⟨"Giorgio", "Giorgio", "Male", "Italian", "it-IT"⟩,
    ⟨"Bianca", "Bianca", "Female", "Italian", "it-IT"⟩,
    ⟨"Inês", "Inês", "Female", "Portuguese", "pt-PT"⟩,
    ⟨"Cristiano", "Cristiano", "Male", "Portuguese", "pt-PT"⟩,
    ⟨"Mizuki", "Mizuki", "Female", "Japanese", "ja-JP"⟩,
    ⟨"Takumi", "Takumi", "Male", "Japanese", "ja-JP"⟩,
    ⟨"Seoyeon", "Seoyeon", "Female", "Korean", "ko-KR"⟩,
    ⟨"Zhiyu", "Zhiyu", "Female", "Chinese (Mandarin)", "cmn-CN"⟩ ]

/-- The Shape-A `getAvailableVoices`: it performs no network call and no
throw can occur — it unconditionally returns the static list. -/
def getAvailableVoicesA : Except TTSApiError (List Voice) :=
  Except.ok lambdaVoices

/-! ## App-level state transitions (src/src/App.tsx) -/

/-- What `convertTextToSpeech` can throw into `handleGenerate`'s catch:
a typed `TTSApiError`, or anything else. -/
inductive Thrown where
  | apiError (e : TTSApiError)
  | other
deriving DecidableEq

/-- The App component state touched by the modelled handlers. -/
structure AppState where
  text : String
  selectedVoice : String
  speechRate : ℚ
  pitch : ℚ
  engine : Engine
  voices : List Voice
  audioUrl : Option String
  isGenerating : Bool
  error : Option String
  success : Option String
deriving DecidableEq

/-- The `loadVoices` handler (App.tsx lines 38-49), given the outcome of
the awaited `getAvailableVoices()` call: on success the catalog is
replaced; on a throw the handler only warns and keeps the current (demo)
catalog. -/
def loadVoices (st : AppState) (res : Except TTSApiError (List Voice)) :
    AppState :=
  match res with
  | Except.ok vs => { st with voices := vs }
  | Except.error _ => st

/-- The complete `handleGenerate` transition (App.tsx lines 51-92), given
the outcome `net` of the awaited `convertTextToSpeech(request)` call.
The two validation guards return early, touching only `error`. Otherwise
on success `audioUrl := response.audioUrl` and the success banner is set
(with `error` cleared beforehand); on a throw the error banner is set from
the `TTSApiError` message or a generic message, `success` having been
cleared beforehand; `isGenerating` ends up false either way. -/
def handleGenerate (st : AppState) (net : Except Thrown LambdaTTSResponse) :
    AppState :=
  if jsTrim st.text = "" then
    { st with error := some emptyTextMsg }
  else if 3000 < utf16Length st.text then
    { st with error := some tooLongMsg }
  else
    match net with
    | Except.ok resp =>
        { st with isGenerating := false
                  error := none
                  audioUrl := resp.audioUrl
                  success := some "Audio generated successfully!" }
    | Except.error (Thrown.apiError e) =>
        { st with isGenerating := false
                  success := none
                  error := some e.message }
    | Except.error Thrown.other =>
        { st with isGenerating := false
                  success := none
                  error := some "An unexpected error occurred. Please try again." }

/-- A synthesis attempt fails when a validation guard fires or the
adapter call throws. -/
def generateFails (st : AppState) (net : Except Thrown LambdaTTSResponse) :
    Prop :=
  jsTrim st.text = "" ∨ 3000 < utf16Length st.text ∨ ∃ e, net = Except.error e

/-! ## AudioPlayer state and handlers (src/components/AudioPlayer.tsx) -/

/-- The `AudioPlayerState` record (src/src/types). -/
structure AudioPlayerState where
  isPlaying : Bool
  currentTime : ℚ
  duration : ℚ
  volume : ℚ
deriving DecidableEq

/-- Initial player state (AudioPlayer.tsx lines 13-18). -/
def initialPlayerState : AudioPlayerState :=
  { isPlaying := false, currentTime := 0, duration := 0, volume := 1 }

/-- The state update run by the `[audioUrl]` effect when the URL changes
(AudioPlayer.tsx line 25): `{ ...prev, currentTime: 0, isPlaying: false }`. -/
def resetOnUrlChange (s : AudioPlayerState) : AudioPlayerState :=
  { s with currentTime := 0, isPlaying := false }

/-- The `loadedmetadata` handler (AudioPlayer.tsx lines 31-33):
`duration: audio.duration || 0`, where a not-yet-known (`NaN`) duration is
modelled as `none`. -/
def updateDuration (s : AudioPlayerState) (d : Option ℚ) : AudioPlayerState :=
  { s with duration := d.getD 0 }

/-- The `handleSeek` handler (AudioPlayer.tsx lines 80-87): the parsed
slider value is written to `audio.currentTime` and to the state verbatim. -/
def handleSeek (s : AudioPlayerState) (newTime : ℚ) : AudioPlayerState :=
  { s with currentTime := newTime }

/-- The `handleVolumeChange` handler (AudioPlayer.tsx lines 89-96). -/
def handleVolumeChange (s : AudioPlayerState) (v : ℚ) : AudioPlayerState :=
  { s with volume := v }

/-! ## Blob-URL lifecycle (`cleanupAudioUrl`, App.tsx lines 413-418, and the
AudioPlayer unmount/replace cleanup effect, AudioPlayer.tsx lines 51-57) -/

/-- Lifecycle view of the player's resource handling: the `audioUrl` the
mounted effect closed over, and the log of `URL.revokeObjectURL` calls
(most recent first). -/
structure UrlTracker where
  current : Option String
  revoked : List String
deriving DecidableEq

/-- The tracker before any resource is loaded. -/
def UrlTracker.init : UrlTracker :=
  { current := none, revoked := [] }

/-- The cleanup function of the `[audioUrl]` effect: `if (audioUrl)
cleanupAudioUrl(audioUrl)`, and `cleanupAudioUrl` revokes only when the
url is truthy and starts with `blob:`. -/
def runCleanup (t : UrlTracker) : UrlTracker :=
  match t.current with
  | some url =>
      if url ≠ "" ∧ jsStartsWith url "blob:" = true then
        { t with revoked := url :: t.revoked }
      else t
  | none => t

/-- Loading a new resource: React re-runs the `[audioUrl]` effect only
when the prop actually changed, first invoking the previous closure's
cleanup (which revokes the previous blob handle) and then installing the
new one. -/
def setResource (t : UrlTracker) (newUrl : String) : UrlTracker :=
  if t.current = some newUrl then t
  else { runCleanup t with current := some newUrl }

/-- Unmounting the player runs the pending cleanup and drops the handle. -/
def unmountPlayer (t : UrlTracker) : UrlTracker :=
  { runCleanup t with current := none }

/-! ## Helper lemmas -/

lemma isJsWhitespace_space : isJsWhitespace ' ' = true := by decide

lemma isJsWhitespace_a : isJsWhitespace 'a' = false := by decide

lemma dropWhile_ws_replicate (n : Nat) :
    (List.replicate n ' ').dropWhile isJsWhitespace = [] := by
  induction n with
  | zero => rfl
  | succ n ih =>
      rw [List.replicate_succ, List.dropWhile_cons, isJsWhitespace_space]
      simpa using ih

lemma dropWhile_ws_replicate_append (n : Nat) :
    (List.replicate n ' ' ++ ['a']).dropWhile isJsWhitespace = ['a'] := by
  induction n with
  | zero => rfl
  | succ n ih =>
      rw [List.replicate_succ, List.cons_append, List.dropWhile_cons,
        isJsWhitespace_space]
      simpa using ih

lemma jsTrim_spaces (n : Nat) : jsTrim ⟨List.replicate n ' '⟩ = "" := by
  show (⟨jsTrimList (List.replicate n ' ')⟩ : String) = ""
  unfold jsTrimList
  rw [dropWhile_ws_replicate]
  rfl

lemma jsTrim_a_spaces (n : Nat) : jsTrim ⟨'a' :: List.replicate n ' '⟩ = "a" := by
  show (⟨jsTrimList ('a' :: List.replicate n ' ')⟩ : String) = "a"
  unfold jsTrimList
  rw [List.dropWhile_cons, isJsWhitespace_a]
  rw [if_neg (by decide : ¬ (false = true))]
  rw [List.reverse_cons, List.reverse_replicate, dropWhile_ws_replicate_append]
  rfl

lemma utf16_unit_space : (if ' '.toNat < 65536 then 1 else 2) = 1 := by decide

lemma utf16_unit_a : (if 'a'.toNat < 65536 then 1 else 2) = 1 := by decide

lemma utf16_spaces (n : Nat) : utf16Length ⟨List.replicate n ' '⟩ = n := by
  show ((List.replicate n ' ').map fun c => if c.toNat < 65536 then 1 else 2).sum = n
  rw [List.map_replicate, utf16_unit_space, List.sum_replicate, smul_eq_mul,
    mul_one]

lemma utf16_a_spaces (n : Nat) :
    utf16Length ⟨'a' :: List.replicate n ' '⟩ = n + 1 := by
  show ((('a' :: List.replicate n ' ').map fun c => if c.toNat < 65536 then 1 else 2).sum) = n + 1
  rw [List.map_cons, List.map_replicate, List.sum_cons, utf16_unit_space,
    utf16_unit_a, List.sum_replicate, smul_eq_mul, mul_one]
  omega

lemma blob_url_ne_empty (s : String) (h : jsStartsWith s "blob:" = true) :
    s ≠ "" := by
  intro hs
  subst hs
  exact absurd h (by decide)

/-! ## Concrete fixtures used by counterexamples and witnesses -/

/-- A 200 JSON response whose body has neither `audioUrl` nor `url`. -/
def respNoUrl : HttpResponse :=
  { ok := true
    status := 200
    statusText := "OK"
    contentTypeHdr := some "application/json"
    xRequestId := none
    json := some {}
    body := [] }

/-- The scenario response: HTTP 400 with JSON body
`{"error": "Missing required fields"}`. -/
def resp400 : HttpResponse :=
  { ok := false
    status := 400
    statusText := "Bad Request"
    contentTypeHdr := some "application/json"
    xRequestId := none
    json := some { error := some "Missing required fields" }
    body := [] }

/-- An app state mid-generation with a previously generated blob handle
loaded. -/
def exampleAppState : AppState :=
  { text := "Hi"
    selectedVoice := "Joanna"
    speechRate := 1
    pitch := 0
    engine := Engine.standard
    voices := DEMO_VOICES
    audioUrl := some "blob:old"
    isGenerating := true
    error := none
    success := none }

/-! ## Claims -/

set_option linter.unusedVariables false in
/-- C1: for consecutive `setResource(A)` then `setResource(B)` on distinct
locally-created (`blob:`) handles, A is revoked exactly once after the
replacement (the revocation log ends up exactly `[A]`), B stays live and
unrevoked, and at no point in the trace are both handles live (after the
first load only A is tracked, after the second only B). The hypothesis
that B is itself a blob handle matches the claim's setup, though the
conclusion about B's liveness does not depend on it. -/
theorem c1_blob_handle_lifecycle (A B : String)
    (hA : jsStartsWith A "blob:" = true) (hB : jsStartsWith B "blob:" = true)
    (hne : A ≠ B) :
    (setResource UrlTracker.init A).current = some A ∧
    (setResource UrlTracker.init A).revoked = [] ∧
    (setResource (setResource UrlTracker.init A) B).current = some B ∧
    (setResource (setResource UrlTracker.init A) B).revoked = [A] ∧
    (setResource (setResource UrlTracker.init A) B).current ≠ some A := by
  have hA' : A ≠ "" := blob_url_ne_empty A hA
  have h1 : setResource UrlTracker.init A = ⟨some A, []⟩ := by
    unfold setResource UrlTracker.init runCleanup
    simp
  have h2 : setResource (⟨some A, []⟩ : UrlTracker) B = ⟨some B, [A]⟩ := by
    unfold setResource runCleanup
    rw [if_neg (by simpa using hne)]
    simp [hA', hA]
  rw [h1, h2]
  exact ⟨rfl, rfl, rfl, rfl, by simpa using Ne.symm hne⟩

/-- Witness for C1 at the concrete handles `blob:a` and `blob:b`. -/
theorem c1_blob_handle_lifecycle_witness :
    jsStartsWith "blob:a" "blob:" = true ∧
    jsStartsWith "blob:b" "blob:" = true ∧
    "blob:a" ≠ "blob:b" ∧
    ((setResource UrlTracker.init "blob:a").current = some "blob:a" ∧
     (setResource UrlTracker.init "blob:a").revoked = [] ∧
     (setResource (setResource UrlTracker.init "blob:a") "blob:b").current = some "blob:b" ∧
     (setResource (setResource UrlTracker.init "blob:a") "blob:b").revoked = ["blob:a"] ∧
     (setResource (setResource UrlTracker.init "blob:a") "blob:b").current ≠ some "blob:a") :=
  ⟨by decide, by decide, by decide,
   c1_blob_handle_lifecycle "blob:a" "blob:b" (by decide) (by decide) (by decide)⟩

/-- C2 counterexample: the claim says out-of-range rate and pitch are
clamped into `[0.25, 4.0]` and `[-20, 20]`; the built request in fact
carries `10` and `25` verbatim, both strictly outside their ranges. -/
theorem c2_clamp_counterexample :
    (buildTTSRequest "Hello world" "Joanna" Engine.standard 10 25).speechRate = 10 ∧
    (buildTTSRequest "Hello world" "Joanna" Engine.standard 10 25).pitch = 25 ∧
    ¬ ((10 : ℚ) ≤ 4) ∧ ¬ ((25 : ℚ) ≤ 20) :=
  ⟨rfl, rfl, by norm_num, by norm_num⟩

/-- C2 amended: request construction performs no clamping at all — the
rate and pitch values are carried into the built request unchanged,
whether in range or not (in-range values therefore pass through unchanged,
as the claim says, but out-of-range values do too). -/
theorem c2_rate_pitch_passthrough (text voiceId : String) (engine : Engine)
    (rate pitch : ℚ) :
    (buildTTSRequest text voiceId engine rate pitch).speechRate = rate ∧
    (buildTTSRequest text voiceId engine rate pitch).pitch = pitch :=
  ⟨rfl, rfl⟩

/-- C3 counterexample: `"Zork"` is in neither loaded catalog (demo list or
static Lambda list), yet request construction succeeds — no `UnknownVoice`
validation failure occurs. -/
theorem c3_unknown_voice_counterexample :
    ("Zork" ∉ DEMO_VOICES.map Voice.id) ∧
    ("Zork" ∉ lambdaVoices.map Voice.id) ∧
    handleGenerateBuild DEMO_VOICES "Hello" "Zork" Engine.standard 1 0 =
      Except.ok (buildTTSRequest "Hello" "Zork" Engine.standard 1 0) :=
  ⟨by decide, by decide, by rfl⟩

/-- C3 amended: `handleGenerate` performs no voice-catalog validation —
for every catalog and every voiceId, present in the catalog or not, once
the two text checks pass the request is built successfully and carries the
voiceId verbatim. -/
theorem c3_no_catalog_validation (voices : List Voice) (text voiceId : String)
    (engine : Engine) (rate pitch : ℚ)
    (h1 : jsTrim text ≠ "") (h2 : utf16Length text ≤ 3000) :
    handleGenerateBuild voices text voiceId engine rate pitch =
      Except.ok (buildTTSRequest text voiceId engine rate pitch) ∧
    (buildTTSRequest text voiceId engine rate pitch).voiceId = voiceId := by
  refine ⟨?_, rfl⟩
  unfold handleGenerateBuild
  rw [if_neg h1, if_neg (by omega : ¬ 3000 < utf16Length text)]

/-- Witness for C3 at a voiceId absent from the demo catalog. -/
theorem c3_no_catalog_validation_witness :
    jsTrim "Hello" ≠ "" ∧ utf16Length "Hello" ≤ 3000 ∧
    (handleGenerateBuild DEMO_VOICES "Hello" "Zork" Engine.standard 1 0 =
       Except.ok (buildTTSRequest "Hello" "Zork" Engine.standard 1 0) ∧
     (buildTTSRequest "Hello" "Zork" Engine.standard 1 0).voiceId = "Zork") :=
  ⟨by decide, by decide,
   c3_no_catalog_validation DEMO_VOICES "Hello" "Zork" Engine.standard 1 0
     (by decide) (by decide)⟩

/-- C4 counterexample: on a 2xx JSON response whose body has neither
`audioUrl` nor `url`, the Shape-A adapter does not raise any error — it
returns a success result whose `audioUrl` is `undefined`. -/
theorem c4_missing_url_counterexample :
    convertTextToSpeechA "blob:local" "uuid-1" respNoUrl =
      Except.ok { audioUrl := none
                  contentType := "audio/mpeg"
                  requestId := "uuid-1"
                  audioData := none } := by
  rfl

/-- C4 amended: on every 2xx response whose content type is not an audio
MIME type and whose JSON body has neither `audioUrl` nor `url`, the
adapter returns a success result with `audioUrl` undefined (there is no
`MalformedResponse` error path). -/
theorem c4_missing_url_returns_undefined (resp : HttpResponse) (j : JsonBody)
    (blobUrl uuid : String)
    (hok : resp.ok = true)
    (hct : jsIncludes (resp.contentTypeHdr.getD "") "audio/" = false)
    (hj : resp.json = some j)
    (h1 : j.audioUrl = none) (h2 : j.url = none) :
    convertTextToSpeechA blobUrl uuid resp =
      Except.ok { audioUrl := none
                  contentType := jsOrStr j.contentType "audio/mpeg"
                  requestId := jsOrStr j.requestId uuid
                  audioData := none } := by
  unfold convertTextToSpeechA
  rw [hok]
  simp only [Bool.true_eq_false, if_neg (by decide : ¬ (true = false)), hct,
    Bool.false_eq_true, if_neg (by decide : ¬ (false = true)), hj]
  simp [jsOr, h1, h2]

/-- Witness for C4 at the concrete empty-body response. -/
theorem c4_missing_url_returns_undefined_witness :
    respNoUrl.ok = true ∧
    jsIncludes (respNoUrl.contentTypeHdr.getD "") "audio/" = false ∧
    respNoUrl.json = some {} ∧
    ({} : JsonBody).audioUrl = none ∧ ({} : JsonBody).url = none ∧
    convertTextToSpeechA "blob:local" "uuid-2" respNoUrl =
      Except.ok { audioUrl := none
                  contentType := jsOrStr ({} : JsonBody).contentType "audio/mpeg"
                  requestId := jsOrStr ({} : JsonBody).requestId "uuid-2"
                  audioData := none } :=
  ⟨rfl, by decide, rfl, rfl, rfl,
   c4_missing_url_returns_undefined respNoUrl {} "blob:local" "uuid-2" rfl
     (by decide) rfl rfl rfl⟩

/-- C5 counterexample: on HTTP 400 with body
`{"error": "Missing required fields"}`, the Shape-B adapter consults only
the `message` field of the error body, so it raises the fallback message
`"HTTP error! status: 400"` — not `"Missing required fields"` as the claim
asserts for both shapes. -/
theorem c5_shapeB_counterexample :
    convertTextToSpeechB resp400 =
      Except.error ⟨"HTTP error! status: 400", some 400⟩ ∧
    ("HTTP error! status: 400" : String) ≠ "Missing required fields" :=
  ⟨by rfl, by decide⟩

/-- C5 amended: on HTTP 400 with body
`{"error": "Missing required fields"}`, the Shape-A adapter raises the
typed error with message `"Missing required fields"` and status 400, while
the Shape-B adapter (which reads only the `message` field) raises message
`"HTTP error! status: 400"` with status 400. -/
theorem c5_error_messages_by_shape :
    convertTextToSpeechA "blob:x" "uuid-3" resp400 =
      Except.error ⟨"Missing required fields", some 400⟩ ∧
    convertTextToSpeechB resp400 =
      Except.error ⟨"HTTP error! status: 400", some 400⟩ :=
  ⟨by rfl, by rfl⟩

/-- C6 counterexample: the claim says `seek(-5)` with duration 120 clamps
the position to 0 and `seek(500)` clamps to 120; the handler in fact
stores `-5` and `500` verbatim. -/
theorem c6_seek_no_clamp_counterexample :
    (handleSeek ⟨false, 30, 120, 1⟩ (-5)).currentTime = -5 ∧ ((-5 : ℚ) ≠ 0) ∧
    (handleSeek ⟨false, 30, 120, 1⟩ 500).currentTime = 500 ∧ ((500 : ℚ) ≠ 120) :=
  ⟨rfl, by norm_num, rfl, by norm_num⟩

/-- C6 amended: `handleSeek` stores the seek target verbatim, with no
clamping to `[0, duration]` (range enforcement comes only from the
slider's `min`/`max` attributes); it leaves the playing/paused status —
and the duration and volume — unchanged. -/
theorem c6_seek_verbatim (s : AudioPlayerState) (t : ℚ) :
    (handleSeek s t).currentTime = t ∧
    (handleSeek s t).isPlaying = s.isPlaying ∧
    (handleSeek s t).duration = s.duration ∧
    (handleSeek s t).volume = s.volume :=
  ⟨rfl, rfl, rfl, rfl⟩

/-- C7 counterexample: a text of 3001 spaces has UTF-16 length 3001 >
3000, but request construction fails with the empty-text message (the
trim check runs first), not the too-long message the claim requires. -/
theorem c7_whitespace_counterexample :
    utf16Length ⟨List.replicate 3001 ' '⟩ = 3001 ∧
    handleGenerateBuild DEMO_VOICES ⟨List.replicate 3001 ' '⟩ "Joanna"
        Engine.standard 1 0 = Except.error emptyTextMsg ∧
    emptyTextMsg ≠ tooLongMsg := by
  refine ⟨utf16_spaces 3001, ?_, by decide⟩
  unfold handleGenerateBuild
  rw [if_pos (jsTrim_spaces 3001)]

/-- C7 amended: for every text whose trimmed form is nonempty and whose
UTF-16 length exceeds 3000, construction fails with the too-long error
(and hence before any network call); a text of length exactly 3000 never
fails with the too-long error. (Whitespace-only over-long text instead
fails with the empty-text error, as the counterexample shows.) -/
theorem c7_too_long_rejected (voices : List Voice) (text voiceId : String)
    (engine : Engine) (rate pitch : ℚ) :
    (jsTrim text ≠ "" → 3000 < utf16Length text →
       handleGenerateBuild voices text voiceId engine rate pitch =
         Except.error tooLongMsg) ∧
    (utf16Length text = 3000 →
       handleGenerateBuild voices text voiceId engine rate pitch ≠
         Except.error tooLongMsg) := by
  constructor
  · intro h1 h2
    unfold handleGenerateBuild
    rw [if_neg h1, if_pos h2]
  · intro h3
    unfold handleGenerateBuild
    rw [h3, if_neg (by omega : ¬ (3000 < 3000))]
    split
    · intro hcontra
      exact absurd (by injection hcontra) (by decide : emptyTextMsg ≠ tooLongMsg)
    · intro hcontra
      exact Except.noConfusion hcontra

/-- Witness for C7: `'a'` followed by 3000 spaces (length 3001, nonempty
trim) is rejected as too long; `'a'` followed by 2999 spaces (length
exactly 3000) is not. -/
theorem c7_too_long_rejected_witness :
    jsTrim ⟨'a' :: List.replicate 3000 ' '⟩ ≠ "" ∧
    3000 < utf16Length ⟨'a' :: List.replicate 3000 ' '⟩ ∧
    utf16Length ⟨'a' :: List.replicate 2999 ' '⟩ = 3000 ∧
    handleGenerateBuild DEMO_VOICES ⟨'a' :: List.replicate 3000 ' '⟩ "Joanna"
        Engine.standard 1 0 = Except.error tooLongMsg ∧
    handleGenerateBuild DEMO_VOICES ⟨'a' :: List.replicate 2999 ' '⟩ "Joanna"
        Engine.standard 1 0 ≠ Except.error tooLongMsg := by
  have h1 : jsTrim ⟨'a' :: List.replicate 3000 ' '⟩ ≠ "" := by
    rw [jsTrim_a_spaces]
    decide
  have h2 : 3000 < utf16Length ⟨'a' :: List.replicate 3000 ' '⟩ := by
    rw [utf16_a_spaces]
    omega
  have h3 : utf16Length ⟨'a' :: List.replicate 2999 ' '⟩ = 3000 := by
    rw [utf16_a_spaces]
  exact ⟨h1, h2, h3,
    (c7_too_long_rejected DEMO_VOICES ⟨'a' :: List.replicate 3000 ' '⟩ "Joanna"
      Engine.standard 1 0).1 h1 h2,
    (c7_too_long_rejected DEMO_VOICES ⟨'a' :: List.replicate 2999 ' '⟩ "Joanna"
      Engine.standard 1 0).2 h3⟩

/-- C8 counterexample: the claim says the reset on a resource change sets
the duration to unknown (0/unset); the code's reset keeps the previous
duration (here 120) untouched. -/
theorem c8_duration_not_reset_counterexample :
    resetOnUrlChange ⟨true, 42, 120, 1/2⟩ =
      (⟨false, 0, 120, 1/2⟩ : AudioPlayerState) ∧
    (120 : ℚ) ≠ 0 :=
  ⟨rfl, by norm_num⟩

/-- C8 amended: whenever the backing resource changes, the player state is
reset to position 0 and not playing, with volume unchanged — but the
duration is also left unchanged (stale from the previous resource) until a
`loadedmetadata` event for the new resource arrives. -/
theorem c8_reset_keeps_duration (s : AudioPlayerState) :
    (resetOnUrlChange s).currentTime = 0 ∧
    (resetOnUrlChange s).isPlaying = false ∧
    (resetOnUrlChange s).duration = s.duration ∧
    (resetOnUrlChange s).volume = s.volume :=
  ⟨rfl, rfl, rfl, rfl⟩

/-- C9: every failed synthesis attempt — a validation guard firing or the
adapter call throwing (typed or not, which covers network failures) —
leaves the tracked `audioUrl` unchanged; only the success branch writes
it. -/
theorem c9_failed_attempt_keeps_audio (st : AppState)
    (net : Except Thrown LambdaTTSResponse) (h : generateFails st net) :
    (handleGenerate st net).audioUrl = st.audioUrl := by
  unfold handleGenerate
  split
  · rfl
  · rename_i hc1
    split
    · rfl
    · rename_i hc2
      rcases h with h | h | ⟨e, rfl⟩
      · exact absurd h hc1
      · exact absurd h hc2
      · cases e <;> rfl

/-- Witness for C9: a thrown non-typed error at a state holding a previous
blob handle leaves that handle tracked. -/
theorem c9_failed_attempt_keeps_audio_witness :
    generateFails exampleAppState (Except.error Thrown.other) ∧
    (handleGenerate exampleAppState (Except.error Thrown.other)).audioUrl =
      exampleAppState.audioUrl :=
  ⟨Or.inr (Or.inr ⟨Thrown.other, rfl⟩),
   c9_failed_attempt_keeps_audio exampleAppState (Except.error Thrown.other)
     (Or.inr (Or.inr ⟨Thrown.other, rfl⟩))⟩

/-- C10: the Shape-A `getAvailableVoices` is a constant: it always returns
the same fixed, non-empty static list and never throws, so `loadVoices`
always installs that list and its catch-and-keep-demo fallback can never
be triggered in this configuration. -/
theorem c10_static_voice_catalog :
    getAvailableVoicesA = Except.ok lambdaVoices ∧
    lambdaVoices ≠ [] ∧
    ∀ st : AppState, (loadVoices st getAvailableVoicesA).voices = lambdaVoices :=
  ⟨rfl, by decide, fun _ => rfl⟩

end TTS
